import Mathlib

/-!
Verification of the cart store-API gateway
(`src/Administration/Resources/app/administration/src/core/service/api/cart-store-api.api.service.js`).

The gateway is a thin client that turns cart operations into HTTP requests.
We embed the payload-construction and request-building logic shallowly:

* JS objects become Lean structures; optional / possibly-`undefined` fields
  become `Option` values, and JS string truthiness (`""` and `undefined` are
  falsy) is modelled explicitly.
* The external collaborators (HTTP transport, header builder, ID generator,
  feature-flag service) are opaque: the service record carries the base-header
  function, the freshly generated id the ID generator would return for the one
  `createId()` call a `saveLineItem` invocation can make, and the feature-flag
  predicate.
* Each public operation returns the `HttpRequest` it would hand to the
  transport (method, route, headers, body) instead of performing I/O.
* `deepCopyObject` is the identity on our pure values, so the copy plus
  field overwrites in `getPayloadForItem` become a structure update.
-/

/-- The frozen `lineItemConstants.types` object. -/
structure LineItemTypeConstants where
  PRODUCT : String
  CREDIT : String
  CUSTOM : String
  PROMOTION : String
deriving Repr, DecidableEq

/-- The frozen `lineItemConstants.priceTypes` object. -/
structure LineItemPriceTypeConstants where
  ABSOLUTE : String
  QUANTITY : String
deriving Repr, DecidableEq

def lineItemTypes : LineItemTypeConstants :=
  { PRODUCT := "product", CREDIT := "credit", CUSTOM := "custom", PROMOTION := "promotion" }

def lineItemPriceTypes : LineItemPriceTypeConstants :=
  { ABSOLUTE := "absolute", QUANTITY := "quantity" }

/-- `getLineItemTypes()`. -/
def getLineItemTypes : LineItemTypeConstants := lineItemTypes

/-- `getLineItemPriceTypes()`. -/
def getLineItemPriceTypes : LineItemPriceTypeConstants := lineItemPriceTypes

/-- The result of a JS property read `obj[key]` on a plain object literal
whose own data properties are strings: an own string value, a member
inherited from `Object.prototype` (a function, or the prototype itself for
the `__proto__` accessor — in any case not `undefined`), or `undefined`. -/
inductive JsProp where
  | undef
  | str (s : String)
  | inherited (name : String)
deriving Repr, DecidableEq

/-- The member names of `Object.prototype` every plain object literal
inherits (the standard data and accessor properties). -/
def objectPrototypeMembers : List String :=
  ["constructor", "hasOwnProperty", "isPrototypeOf", "propertyIsEnumerable",
   "toLocaleString", "toString", "valueOf", "__proto__", "__defineGetter__",
   "__defineSetter__", "__lookupGetter__", "__lookupSetter__"]

/-- JS property access `own[key]` on a plain object literal: an own property
wins, otherwise the lookup walks the prototype chain to `Object.prototype`
before yielding `undefined`. -/
def jsLookup (own : List (String × String)) (key : String) : JsProp :=
  match own.lookup key with
  | some v => JsProp.str v
  | none => if key ∈ objectPrototypeMembers then JsProp.inherited key else JsProp.undef

/-- `mapLineItemTypeToPriceType(itemType)`: the property read
`mapTypes[itemType]` on the object literal
`{product: quantity, custom: quantity, credit: absolute}`.  An unmapped key
yields `undefined` — unless it names an `Object.prototype` member, which the
prototype chain makes the read return instead. -/
def mapLineItemTypeToPriceType (itemType : String) : JsProp :=
  jsLookup
    [(getLineItemTypes.PRODUCT, getLineItemPriceTypes.QUANTITY),
     (getLineItemTypes.CUSTOM, getLineItemPriceTypes.QUANTITY),
     (getLineItemTypes.CREDIT, getLineItemPriceTypes.ABSOLUTE)]
    itemType

/-- The nested `price` object of a line item; `unitPrice` may be absent. -/
structure Price where
  unitPrice : Option Int
deriving Repr, DecidableEq

/-- A price definition: `price` with `taxRules`, and the `quantity` / `type`
fields that `getPayloadForItem` overwrites.  `taxRules` is opaque to the
gateway and only ever copied, so we model each tax rule as a string. -/
structure PriceDef where
  price : Option Int
  taxRules : List String
  quantity : Option Int
  type : JsProp
deriving Repr, DecidableEq

/-- A domain-level line item as consumed by `saveLineItem`. -/
structure LineItem where
  id : Option String
  identifier : Option String
  type : String
  label : String
  quantity : Int
  description : String
  price : Price
  priceDefinition : PriceDef
  _isNew : Bool
deriving Repr, DecidableEq

/-- One entry of the wire payload's `items` array.  Fields the code leaves out
(as in `addPromotionCode`'s synthetic item) are `none`. -/
structure PayloadItem where
  id : Option String := none
  referencedId : Option String := none
  label : Option String := none
  quantity : Option Int := none
  type : Option String := none
  description : Option String := none
  priceDefinition : Option PriceDef := none
  stackable : Option Bool := none
  removable : Option Bool := none
  salesChannelId : Option String := none
deriving Repr, DecidableEq

/-- The wire payload `{items: [...]}`. -/
structure Payload where
  items : List PayloadItem
deriving Repr, DecidableEq

/-- `getPayloadForItem(item, salesChannelId, isNewProductItem, id)`:
the `dummyPrice` is built (deep copy of `item.priceDefinition`, then
`taxRules` re-assigned, `quantity` and `type` overwritten) exactly when
`!isNewProductItem && item.price.unitPrice !== item.priceDefinition.price`. -/
def getPayloadForItem (item : LineItem) (salesChannelId : String)
    (isNewProductItem : Bool) (id : String) : Payload :=
  let dummyPrice : Option PriceDef :=
    if !isNewProductItem && item.price.unitPrice != item.priceDefinition.price then
      some { item.priceDefinition with
               taxRules := item.priceDefinition.taxRules,
               quantity := some item.quantity,
               type := mapLineItemTypeToPriceType item.type }
    else none
  { items := [ { id := some id,
                 referencedId := some id,
                 label := some item.label,
                 quantity := some item.quantity,
                 type := some item.type,
                 description := some item.description,
                 priceDefinition := dummyPrice,
                 stackable := some true,
                 removable := some true,
                 salesChannelId := some salesChannelId } ] }

/-- The `priceDefinition` of the first (and only) payload item. -/
def firstItemPriceDefinition (p : Payload) : Option PriceDef :=
  match p.items with
  | itm :: _ => itm.priceDefinition
  | [] => none

/-- HTTP methods of the transport collaborator. -/
inductive Method where
  | get
  | post
  | patch
  | delete
deriving Repr, DecidableEq

/-- The shipping-costs object is opaque to the gateway and forwarded
verbatim; we model it as an abstract token. -/
structure ShippingCosts where
  payload : String
deriving Repr, DecidableEq

/-- The request body, one constructor per body shape the gateway produces.
`promotionToggle` is the `data` object of the automatic-promotion toggles
after the `salesChannelId` key has been set (its value may itself be
`undefined`, hence the inner `Option`); `empty` is the untouched `{}`. -/
inductive Body where
  | empty
  | items (p : Payload)
  | ids (lineItemKeys : List String)
  | shippingCosts (salesChannelId : String) (costs : ShippingCosts)
  | promotionToggle (salesChannelId : Option String)
deriving Repr, DecidableEq

/-- Headers are a JS object: a finite map from header name to value, modelled
as a lookup function (later assignments win, which the model applies
directly). -/
abbrev Headers := String → Option String

/-- The request a gateway operation hands to the HTTP transport.
`additionalParams` are forwarded to the transport unchanged and are only
modelled where the gateway itself reads them (the promotion toggles). -/
structure HttpRequest where
  method : Method
  route : String
  headers : Headers
  body : Body

/-- `{...base, 'sw-context-token': contextToken}`: spread of the basic
headers followed by an explicit assignment, so the token wins. -/
def withContextToken (base : Headers) (contextToken : String) : Headers :=
  fun k => if k = "sw-context-token" then some contextToken else base k

/-- The gateway with its external collaborators: the admin-API version used in
routes, `getBasicHeaders` (merging caller headers with authentication
headers), the fresh identifier `utils.createId()` would produce for the one
call a `saveLineItem` invocation can make, and the feature-flag service's
`isActive`. -/
structure CartStoreService where
  apiVersion : Nat
  basicHeaders : Headers → Headers
  createId : String
  featureIsActive : String → Bool

/-- The cart route `_proxy/store-api/{salesChannelId}/v{version}/checkout/cart`. -/
def CartStoreService.cartRoute (svc : CartStoreService) (salesChannelId : String) : String :=
  "_proxy/store-api/" ++ salesChannelId ++ "/v" ++ toString svc.apiVersion ++ "/checkout/cart"

/-- `getRouteForItem(id, salesChannelId)`: the line-item route.  The source
ignores `id` (and the extra `isNewProductItem` argument `saveLineItem`
passes). -/
def CartStoreService.getRouteForItem (svc : CartStoreService) (id salesChannelId : String) : String :=
  "_proxy/store-api/" ++ salesChannelId ++ "/v" ++ toString svc.apiVersion ++ "/checkout/cart/line-item"

/-- `createCart`: GET on the cart route, basic headers only. -/
def CartStoreService.createCart (svc : CartStoreService) (salesChannelId : String)
    (additionalHeaders : Headers) : HttpRequest :=
  { method := Method.get,
    route := svc.cartRoute salesChannelId,
    headers := svc.basicHeaders additionalHeaders,
    body := Body.empty }

/-- `getCart`: GET on the cart route with the context token attached. -/
def CartStoreService.getCart (svc : CartStoreService) (salesChannelId contextToken : String)
    (additionalHeaders : Headers) : HttpRequest :=
  { method := Method.get,
    route := svc.cartRoute salesChannelId,
    headers := withContextToken (svc.basicHeaders additionalHeaders) contextToken,
    body := Body.empty }

/-- `cancelCart`: DELETE on the cart route with the context token attached. -/
def CartStoreService.cancelCart (svc : CartStoreService) (salesChannelId contextToken : String)
    (additionalHeaders : Headers) : HttpRequest :=
  { method := Method.delete,
    route := svc.cartRoute salesChannelId,
    headers := withContextToken (svc.basicHeaders additionalHeaders) contextToken,
    body := Body.empty }

/-- `removeLineItems`: DELETE on the line-item route, body `{ids: lineItemKeys}`. -/
def CartStoreService.removeLineItems (svc : CartStoreService)
    (salesChannelId contextToken : String) (lineItemKeys : List String)
    (additionalHeaders : Headers) : HttpRequest :=
  { method := Method.delete,
    route := "_proxy/store-api/" ++ salesChannelId ++ "/v" ++ toString svc.apiVersion
               ++ "/checkout/cart/line-item",
    headers := withContextToken (svc.basicHeaders additionalHeaders) contextToken,
    body := Body.ids lineItemKeys }

/-- JS `a || b` on an optional string `a`: `b` when `a` is `undefined` or the
empty string (falsy), the value of `a` otherwise. -/
def jsOr (a : Option String) (b : String) : String :=
  match a with
  | some s => if s = "" then b else s
  | none => b

/-- `saveLineItem`: computes `isNewProductItem`, resolves the wire identifier
by `item.identifier || item.id || utils.createId()`, builds the payload, and
issues POST when `item._isNew` is set, PATCH otherwise. -/
def CartStoreService.saveLineItem (svc : CartStoreService)
    (salesChannelId contextToken : String) (item : LineItem)
    (additionalHeaders : Headers) : HttpRequest :=
  let isNewProductItem := item._isNew && item.type == getLineItemTypes.PRODUCT
  let id := jsOr item.identifier (jsOr item.id svc.createId)
  let route := svc.getRouteForItem id salesChannelId
  let headers := withContextToken (svc.basicHeaders additionalHeaders) contextToken
  let payload := getPayloadForItem item salesChannelId isNewProductItem id
  if item._isNew then
    { method := Method.post, route := route, headers := headers, body := Body.items payload }
  else
    { method := Method.patch, route := route, headers := headers, body := Body.items payload }

/-- `addPromotionCode`: POST on the line-item route with a single synthetic
promotion item whose `referencedId` is the code. -/
def CartStoreService.addPromotionCode (svc : CartStoreService)
    (salesChannelId contextToken code : String)
    (additionalHeaders : Headers) : HttpRequest :=
  { method := Method.post,
    route := "_proxy/store-api/" ++ salesChannelId ++ "/v" ++ toString svc.apiVersion
               ++ "/checkout/cart/line-item",
    headers := withContextToken (svc.basicHeaders additionalHeaders) contextToken,
    body := Body.items { items := [ { type := some "promotion", referencedId := some code } ] } }

/-- `modifyShippingCosts`: PATCH on `_proxy/modify-shipping-costs` carrying
`{salesChannelId, shippingCosts}`. -/
def CartStoreService.modifyShippingCosts (svc : CartStoreService)
    (salesChannelId contextToken : String) (shippingCosts : ShippingCosts)
    (additionalHeaders : Headers) : HttpRequest :=
  { method := Method.patch,
    route := "_proxy/modify-shipping-costs",
    headers := withContextToken (svc.basicHeaders additionalHeaders) contextToken,
    body := Body.shippingCosts salesChannelId shippingCosts }

/-- The `additionalParams` argument of the automatic-promotion toggles; only
its `salesChannelId` member is read by the gateway. -/
structure PromotionParams where
  salesChannelId : Option String
deriving Repr, DecidableEq

/-- `disableAutomaticPromotions`: PATCH on the fixed toggle route; `data`
starts as `{}` and gains `salesChannelId` exactly when the feature flag
`FEATURE_NEXT_10058` is active. -/
def CartStoreService.disableAutomaticPromotions (svc : CartStoreService)
    (contextToken : String) (additionalParams : PromotionParams)
    (additionalHeaders : Headers) : HttpRequest :=
  { method := Method.patch,
    route := "_proxy/disable-automatic-promotions",
    headers := withContextToken (svc.basicHeaders additionalHeaders) contextToken,
    body := if svc.featureIsActive "FEATURE_NEXT_10058" then
              Body.promotionToggle additionalParams.salesChannelId
            else Body.empty }

/-- `enableAutomaticPromotions`: PATCH on the fixed toggle route; same body
construction as `disableAutomaticPromotions`. -/
def CartStoreService.enableAutomaticPromotions (svc : CartStoreService)
    (contextToken : String) (additionalParams : PromotionParams)
    (additionalHeaders : Headers) : HttpRequest :=
  { method := Method.patch,
    route := "_proxy/enable-automatic-promotions",
    headers := withContextToken (svc.basicHeaders additionalHeaders) contextToken,
    body := if svc.featureIsActive "FEATURE_NEXT_10058" then
              Body.promotionToggle additionalParams.salesChannelId
            else Body.empty }

/-- Whether a request body carries a `salesChannelId` key. -/
def Body.hasSalesChannelIdField : Body → Bool
  | Body.shippingCosts _ _ => true
  | Body.promotionToggle _ => true
  | _ => false

/-- The `id` field of the first item of an `items` body, if any. -/
def HttpRequest.payloadItemId (r : HttpRequest) : Option String :=
  match r.body with
  | Body.items p =>
      match p.items with
      | itm :: _ => itm.id
      | [] => none
  | _ => none

/-- The `referencedId` field of the first item of an `items` body, if any. -/
def HttpRequest.payloadItemReferencedId (r : HttpRequest) : Option String :=
  match r.body with
  | Body.items p =>
      match p.items with
      | itm :: _ => itm.referencedId
      | [] => none
  | _ => none

/-- The `priceDefinition` sent by a `saveLineItem` request. -/
def HttpRequest.payloadPriceDefinition (r : HttpRequest) : Option PriceDef :=
  match r.body with
  | Body.items p => firstItemPriceDefinition p
  | _ => none

/-- JS truthiness of an optional string: `undefined` and `""` are falsy. -/
def truthy (s : Option String) : Bool :=
  match s with
  | none => false
  | some str => str != ""

/-! ### Test fixtures shared by witnesses and counterexamples -/

def noHeaders : Headers := fun _ => none

/-- A concrete service instance whose feature flag is inactive. -/
def testService : CartStoreService :=
  { apiVersion := 3,
    basicHeaders := fun h => h,
    createId := "generated-id",
    featureIsActive := fun _ => false }

/-- A concrete service instance with `FEATURE_NEXT_10058` active. -/
def flagOnService : CartStoreService :=
  { apiVersion := 3,
    basicHeaders := fun h => h,
    createId := "generated-id",
    featureIsActive := fun f => f == "FEATURE_NEXT_10058" }

/-- A newly created credit line item whose local unit price differs from its
stored price definition's price. -/
def newCreditItem : LineItem :=
  { id := none,
    identifier := some "credit-1",
    type := "credit",
    label := "Credit",
    quantity := 1,
    description := "a credit",
    price := { unitPrice := some 500 },
    priceDefinition := { price := some 300, taxRules := ["19"], quantity := none, type := JsProp.undef },
    _isNew := true }

/-- A newly created product line item with a price mismatch. -/
def newProductItem : LineItem :=
  { id := some "prod-1",
    identifier := none,
    type := "product",
    label := "Product",
    quantity := 4,
    description := "a product",
    price := { unitPrice := some 500 },
    priceDefinition := { price := some 300, taxRules := ["19"], quantity := none, type := JsProp.undef },
    _isNew := true }

/-- An existing custom item with a locally edited (dirty) unit price. -/
def dirtyCustomItem : LineItem :=
  { id := some "custom-1",
    identifier := some "custom-1",
    type := "custom",
    label := "Custom",
    quantity := 2,
    description := "a custom charge",
    price := { unitPrice := some 250 },
    priceDefinition := { price := some 200, taxRules := ["7"], quantity := some 9, type := JsProp.str "stale" },
    _isNew := false }

/-- An existing product item whose unit price matches its price definition. -/
def cleanProductItem : LineItem :=
  { id := some "prod-2",
    identifier := some "prod-2",
    type := "product",
    label := "Product",
    quantity := 3,
    description := "a product",
    price := { unitPrice := some 100 },
    priceDefinition := { price := some 100, taxRules := ["19"], quantity := none, type := JsProp.undef },
    _isNew := false }

/-- An item whose `identifier` is present but the empty string, with a
non-empty `id`. -/
def emptyIdentifierItem : LineItem :=
  { id := some "existing-id",
    identifier := some "",
    type := "product",
    label := "Product",
    quantity := 1,
    description := "a product",
    price := { unitPrice := some 100 },
    priceDefinition := { price := some 100, taxRules := [], quantity := none, type := JsProp.undef },
    _isNew := false }

/-- An item whose `identifier` and `id` are both present but empty strings. -/
def allEmptyIdsItem : LineItem :=
  { id := some "",
    identifier := some "",
    type := "product",
    label := "Product",
    quantity := 1,
    description := "a product",
    price := { unitPrice := some 100 },
    priceDefinition := { price := some 100, taxRules := [], quantity := none, type := JsProp.undef },
    _isNew := false }

/-! ### Claims -/

/-- Helper: the payload a `saveLineItem` request carries is
`getPayloadForItem` at the arguments `saveLineItem` computes, whatever the
`_isNew` branch. -/
theorem saveLineItem_body (svc : CartStoreService) (scId token : String)
    (item : LineItem) (hdrs : Headers) :
    (svc.saveLineItem scId token item hdrs).body
      = Body.items (getPayloadForItem item scId
          (item._isNew && item.type == getLineItemTypes.PRODUCT)
          (jsOr item.identifier (jsOr item.id svc.createId))) := by
  unfold CartStoreService.saveLineItem
  cases item._isNew <;> rfl

/-- C1 (as stated, refuted): a concrete newly created credit item with a
price mismatch makes the payload's `priceDefinition` non-null even though
`item._isNew` is true, so "non-null iff `_isNew` is false and the unit
prices differ" fails. -/
theorem saveLineItem_priceDefinition_iff_counterexample :
    ¬ (((testService.saveLineItem "sc-1" "tok" newCreditItem noHeaders).payloadPriceDefinition).isSome = true
        ↔ (newCreditItem._isNew = false
            ∧ newCreditItem.price.unitPrice ≠ newCreditItem.priceDefinition.price)) := by
  rw [HttpRequest.payloadPriceDefinition, saveLineItem_body]
  decide

/-- C1 (amended): the payload's `priceDefinition` is non-null iff the item is
not a newly created *product* item (i.e. not both `_isNew` and of type
`product`) and its unit price differs from its price definition's price. -/
theorem saveLineItem_priceDefinition_iff (svc : CartStoreService) (scId token : String)
    (item : LineItem) (hdrs : Headers) :
    ((svc.saveLineItem scId token item hdrs).payloadPriceDefinition).isSome = true
      ↔ (¬ (item._isNew = true ∧ item.type = "product")
          ∧ item.price.unitPrice ≠ item.priceDefinition.price) := by
  rw [HttpRequest.payloadPriceDefinition, saveLineItem_body]
  cases hNew : item._isNew <;>
    by_cases hType : item.type = "product" <;>
    by_cases hPrice : item.price.unitPrice = item.priceDefinition.price <;>
    simp [getPayloadForItem, firstItemPriceDefinition, getLineItemTypes, lineItemTypes,
          hNew, hType, hPrice, bne_iff_ne]

/-- C2: for a new product item (`_isNew = true`, `type = "product"`), the
payload's `priceDefinition` is null regardless of any price mismatch. -/
theorem new_product_item_priceDefinition_null (svc : CartStoreService)
    (scId token : String) (item : LineItem) (hdrs : Headers)
    (hNew : item._isNew = true) (hType : item.type = "product") :
    (svc.saveLineItem scId token item hdrs).payloadPriceDefinition = none := by
  rw [HttpRequest.payloadPriceDefinition, saveLineItem_body]
  simp [getPayloadForItem, firstItemPriceDefinition, getLineItemTypes, lineItemTypes,
        hNew, hType]

/-- C2 witness: a concrete new product item with a price mismatch still gets
a null `priceDefinition`. -/
theorem new_product_item_priceDefinition_null_witness :
    newProductItem._isNew = true ∧ newProductItem.type = "product"
      ∧ newProductItem.price.unitPrice ≠ newProductItem.priceDefinition.price
      ∧ (testService.saveLineItem "sc-1" "tok" newProductItem noHeaders).payloadPriceDefinition = none :=
  ⟨rfl, rfl, by decide,
    new_product_item_priceDefinition_null testService "sc-1" "tok" newProductItem noHeaders rfl rfl⟩

/-- C3: for an existing item (`_isNew = false`) with a unit-price mismatch,
the payload's `priceDefinition` is non-null, with `quantity` overwritten to
the item's quantity and `type` to the statically mapped price type. -/
theorem existing_item_price_mismatch_priceDefinition (svc : CartStoreService)
    (scId token : String) (item : LineItem) (hdrs : Headers)
    (hNew : item._isNew = false)
    (hPrice : item.price.unitPrice ≠ item.priceDefinition.price) :
    ∃ pd : PriceDef,
      (svc.saveLineItem scId token item hdrs).payloadPriceDefinition = some pd
        ∧ pd.quantity = some item.quantity
        ∧ pd.type = mapLineItemTypeToPriceType item.type := by
  rw [HttpRequest.payloadPriceDefinition, saveLineItem_body]
  refine ⟨{ item.priceDefinition with
              taxRules := item.priceDefinition.taxRules,
              quantity := some item.quantity,
              type := mapLineItemTypeToPriceType item.type }, ?_, rfl, rfl⟩
  simp [getPayloadForItem, firstItemPriceDefinition, hNew, bne_iff_ne, hPrice]

/-- C3 witness: a concrete existing custom item with a dirty price yields a
`priceDefinition` with the item's quantity and the mapped price type. -/
theorem existing_item_price_mismatch_priceDefinition_witness :
    dirtyCustomItem._isNew = false
      ∧ dirtyCustomItem.price.unitPrice ≠ dirtyCustomItem.priceDefinition.price
      ∧ ∃ pd : PriceDef,
          (testService.saveLineItem "sc-1" "tok" dirtyCustomItem noHeaders).payloadPriceDefinition = some pd
            ∧ pd.quantity = some dirtyCustomItem.quantity
            ∧ pd.type = mapLineItemTypeToPriceType dirtyCustomItem.type :=
  ⟨rfl, by decide,
    existing_item_price_mismatch_priceDefinition testService "sc-1" "tok" dirtyCustomItem
      noHeaders rfl (by decide)⟩

/-- C4: for an existing item (`_isNew = false`) whose unit price equals its
price definition's price, the payload's `priceDefinition` is null. -/
theorem existing_item_price_match_priceDefinition_null (svc : CartStoreService)
    (scId token : String) (item : LineItem) (hdrs : Headers)
    (hNew : item._isNew = false)
    (hPrice : item.price.unitPrice = item.priceDefinition.price) :
    (svc.saveLineItem scId token item hdrs).payloadPriceDefinition = none := by
  rw [HttpRequest.payloadPriceDefinition, saveLineItem_body]
  simp [getPayloadForItem, firstItemPriceDefinition, hNew, bne_iff_ne, hPrice]

/-- C4 witness: a concrete existing product item with matching prices gets a
null `priceDefinition`. -/
theorem existing_item_price_match_priceDefinition_null_witness :
    cleanProductItem._isNew = false
      ∧ cleanProductItem.price.unitPrice = cleanProductItem.priceDefinition.price
      ∧ (testService.saveLineItem "sc-1" "tok" cleanProductItem noHeaders).payloadPriceDefinition = none :=
  ⟨rfl, rfl,
    existing_item_price_match_priceDefinition_null testService "sc-1" "tok" cleanProductItem
      noHeaders rfl rfl⟩


/-- C5: `saveLineItem` issues POST exactly when `item._isNew` is true and
PATCH otherwise, and its route is the line-item route, the same for every
item regardless of newness. -/
theorem saveLineItem_method_and_route (svc : CartStoreService) (scId token : String)
    (item other : LineItem) (hdrs : Headers) :
    ((svc.saveLineItem scId token item hdrs).method = Method.post ↔ item._isNew = true)
    ∧ ((svc.saveLineItem scId token item hdrs).method = Method.patch ↔ item._isNew = false)
    ∧ (svc.saveLineItem scId token item hdrs).route
        = "_proxy/store-api/" ++ scId ++ "/v" ++ toString svc.apiVersion
            ++ "/checkout/cart/line-item"
    ∧ (svc.saveLineItem scId token item hdrs).route
        = (svc.saveLineItem scId token other hdrs).route := by
  unfold CartStoreService.saveLineItem CartStoreService.getRouteForItem
  cases h : item._isNew <;> cases h2 : other._isNew <;> simp [h, h2]

/-- C6 (as stated, refuted): `toString` is not one of the three mapped keys,
yet the property read `mapTypes['toString']` returns the member inherited
from `Object.prototype`, not `undefined`. -/
theorem mapLineItemTypeToPriceType_unmapped_counterexample :
    ("toString" : String) ≠ "product" ∧ ("toString" : String) ≠ "custom"
    ∧ ("toString" : String) ≠ "credit"
    ∧ mapLineItemTypeToPriceType "toString" ≠ JsProp.undef
    ∧ mapLineItemTypeToPriceType "toString" = JsProp.inherited "toString" := by
  decide

/-- C6 (amended): the static map sends `product` and `custom` to `quantity`
and `credit` to `absolute`; every other input — `promotion` included — yields
`undefined`, except the inputs naming an `Object.prototype` member
(`toString`, `constructor`, `__proto__`, …), for which the lookup returns the
inherited member instead. -/
theorem mapLineItemTypeToPriceType_spec :
    mapLineItemTypeToPriceType "product" = JsProp.str "quantity"
    ∧ mapLineItemTypeToPriceType "custom" = JsProp.str "quantity"
    ∧ mapLineItemTypeToPriceType "credit" = JsProp.str "absolute"
    ∧ mapLineItemTypeToPriceType "promotion" = JsProp.undef
    ∧ (∀ t : String, t ≠ "product" → t ≠ "custom" → t ≠ "credit" →
        t ∉ objectPrototypeMembers → mapLineItemTypeToPriceType t = JsProp.undef)
    ∧ (∀ t : String, t ≠ "product" → t ≠ "custom" → t ≠ "credit" →
        t ∈ objectPrototypeMembers → mapLineItemTypeToPriceType t = JsProp.inherited t) := by
  refine ⟨rfl, rfl, rfl, rfl, ?_, ?_⟩ <;>
  · intro t h1 h2 h3 h4
    have b1 : (t == "product") = false := beq_eq_false_iff_ne.mpr h1
    have b2 : (t == "custom") = false := beq_eq_false_iff_ne.mpr h2
    have b3 : (t == "credit") = false := beq_eq_false_iff_ne.mpr h3
    simp [mapLineItemTypeToPriceType, jsLookup, getLineItemTypes, lineItemTypes,
          List.lookup, b1, b2, b3, h4]

/-- C6 witness: a plain unmapped type such as `discount` yields `undefined`,
while the prototype member name `constructor` yields the inherited member. -/
theorem mapLineItemTypeToPriceType_spec_witness :
    mapLineItemTypeToPriceType "discount" = JsProp.undef
    ∧ mapLineItemTypeToPriceType "constructor" = JsProp.inherited "constructor" :=
  ⟨mapLineItemTypeToPriceType_spec.2.2.2.2.1 "discount"
      (by decide) (by decide) (by decide) (by decide),
    mapLineItemTypeToPriceType_spec.2.2.2.2.2 "constructor"
      (by decide) (by decide) (by decide) (by decide)⟩

/-- Helper: the `id` and `referencedId` the payload carries are the resolved
wire identifier `item.identifier || item.id || utils.createId()`. -/
theorem saveLineItem_payload_ids (svc : CartStoreService) (scId token : String)
    (item : LineItem) (hdrs : Headers) :
    (svc.saveLineItem scId token item hdrs).payloadItemId
        = some (jsOr item.identifier (jsOr item.id svc.createId))
    ∧ (svc.saveLineItem scId token item hdrs).payloadItemReferencedId
        = some (jsOr item.identifier (jsOr item.id svc.createId)) := by
  unfold CartStoreService.saveLineItem HttpRequest.payloadItemId
    HttpRequest.payloadItemReferencedId
  cases h : item._isNew <;> simp [h, getPayloadForItem]

/-- C7 (as stated, refuted): for a concrete item whose `identifier` is
present but the empty string, the wire identifier is taken from `item.id`,
not from the present `identifier`. -/
theorem saveLineItem_identifier_presence_counterexample :
    emptyIdentifierItem.identifier = some ""
    ∧ (testService.saveLineItem "sc-1" "tok" emptyIdentifierItem noHeaders).payloadItemId
        = some "existing-id"
    ∧ (testService.saveLineItem "sc-1" "tok" emptyIdentifierItem noHeaders).payloadItemId
        ≠ emptyIdentifierItem.identifier := by
  have h := (saveLineItem_payload_ids testService "sc-1" "tok" emptyIdentifierItem noHeaders).1
  refine ⟨rfl, ?_, ?_⟩
  · rw [h]; rfl
  · rw [h]; decide

/-- C7 (amended): the wire identifier placed in the payload (as both `id` and
`referencedId`) is `item.identifier` if that is truthy (present and
non-empty), else `item.id` if truthy, else the freshly generated identifier
from the ID-generation collaborator. -/
theorem saveLineItem_identifier_precedence (svc : CartStoreService) (scId token : String)
    (item : LineItem) (hdrs : Headers) :
    ∃ wireId : String,
      (svc.saveLineItem scId token item hdrs).payloadItemId = some wireId
      ∧ (svc.saveLineItem scId token item hdrs).payloadItemReferencedId = some wireId
      ∧ ((truthy item.identifier = true ∧ item.identifier = some wireId)
          ∨ (truthy item.identifier = false ∧ truthy item.id = true ∧ item.id = some wireId)
          ∨ (truthy item.identifier = false ∧ truthy item.id = false
              ∧ wireId = svc.createId)) := by
  obtain ⟨h1, h2⟩ := saveLineItem_payload_ids svc scId token item hdrs
  refine ⟨_, h1, h2, ?_⟩
  cases hident : item.identifier with
  | some s =>
      by_cases hs : s = ""
      · cases hid : item.id with
        | some t =>
            by_cases ht : t = ""
            · exact Or.inr (Or.inr ⟨by simp [truthy, hident, hs], by simp [truthy, hid, ht],
                by simp [jsOr, hident, hs, hid, ht]⟩)
            · exact Or.inr (Or.inl ⟨by simp [truthy, hident, hs], by simp [truthy, hid, ht],
                by simp [jsOr, hident, hs, hid, ht]⟩)
        | none =>
            exact Or.inr (Or.inr ⟨by simp [truthy, hident, hs], by simp [truthy, hid],
              by simp [jsOr, hident, hs, hid]⟩)
      · exact Or.inl ⟨by simp [truthy, hident, hs], by simp [jsOr, hident, hs]⟩
  | none =>
      cases hid : item.id with
      | some t =>
          by_cases ht : t = ""
          · exact Or.inr (Or.inr ⟨by simp [truthy, hident], by simp [truthy, hid, ht],
              by simp [jsOr, hident, hid, ht]⟩)
          · exact Or.inr (Or.inl ⟨by simp [truthy, hident], by simp [truthy, hid, ht],
              by simp [jsOr, hident, hid, ht]⟩)
      | none =>
          exact Or.inr (Or.inr ⟨by simp [truthy, hident], by simp [truthy, hid],
            by simp [jsOr, hident, hid]⟩)

/-- C8: the automatic-promotion toggle bodies carry a `salesChannelId` field
exactly when the feature flag `FEATURE_NEXT_10058` is active; when it is
inactive the body is the empty object. -/
theorem automaticPromotions_salesChannelId_iff_flag (svc : CartStoreService)
    (token : String) (params : PromotionParams) (hdrs : Headers) :
    ((svc.disableAutomaticPromotions token params hdrs).body.hasSalesChannelIdField
        = svc.featureIsActive "FEATURE_NEXT_10058")
    ∧ (svc.featureIsActive "FEATURE_NEXT_10058" = false →
        (svc.disableAutomaticPromotions token params hdrs).body = Body.empty)
    ∧ (svc.featureIsActive "FEATURE_NEXT_10058" = true →
        (svc.disableAutomaticPromotions token params hdrs).body
          = Body.promotionToggle params.salesChannelId)
    ∧ ((svc.enableAutomaticPromotions token params hdrs).body.hasSalesChannelIdField
        = svc.featureIsActive "FEATURE_NEXT_10058")
    ∧ (svc.featureIsActive "FEATURE_NEXT_10058" = false →
        (svc.enableAutomaticPromotions token params hdrs).body = Body.empty)
    ∧ (svc.featureIsActive "FEATURE_NEXT_10058" = true →
        (svc.enableAutomaticPromotions token params hdrs).body
          = Body.promotionToggle params.salesChannelId) := by
  cases h : svc.featureIsActive "FEATURE_NEXT_10058" <;>
    simp [CartStoreService.disableAutomaticPromotions,
          CartStoreService.enableAutomaticPromotions, Body.hasSalesChannelIdField, h]

/-- C8 witness: with the flag inactive both toggle bodies are empty, and with
it active both carry the supplied `salesChannelId`. -/
theorem automaticPromotions_salesChannelId_iff_flag_witness :
    testService.featureIsActive "FEATURE_NEXT_10058" = false
    ∧ (testService.disableAutomaticPromotions "tok" { salesChannelId := some "sc-1" } noHeaders).body
        = Body.empty
    ∧ flagOnService.featureIsActive "FEATURE_NEXT_10058" = true
    ∧ (flagOnService.disableAutomaticPromotions "tok" { salesChannelId := some "sc-1" } noHeaders).body
        = Body.promotionToggle (some "sc-1")
    ∧ (flagOnService.enableAutomaticPromotions "tok" { salesChannelId := some "sc-1" } noHeaders).body
        = Body.promotionToggle (some "sc-1") :=
  ⟨rfl,
    (automaticPromotions_salesChannelId_iff_flag testService "tok"
      { salesChannelId := some "sc-1" } noHeaders).2.1 rfl,
    rfl,
    (automaticPromotions_salesChannelId_iff_flag flagOnService "tok"
      { salesChannelId := some "sc-1" } noHeaders).2.2.1 rfl,
    (automaticPromotions_salesChannelId_iff_flag flagOnService "tok"
      { salesChannelId := some "sc-1" } noHeaders).2.2.2.2.2 rfl⟩

/-- C9: every operation targeting an existing cart — `getCart`, `cancelCart`,
`removeLineItems`, `saveLineItem`, `addPromotionCode`, `modifyShippingCosts`,
`disableAutomaticPromotions`, `enableAutomaticPromotions` — attaches the
supplied context token under the header name `sw-context-token`. -/
theorem context_token_header_attached (svc : CartStoreService)
    (scId token code : String) (keys : List String) (item : LineItem)
    (costs : ShippingCosts) (params : PromotionParams) (hdrs : Headers) :
    (svc.getCart scId token hdrs).headers "sw-context-token" = some token
    ∧ (svc.cancelCart scId token hdrs).headers "sw-context-token" = some token
    ∧ (svc.removeLineItems scId token keys hdrs).headers "sw-context-token" = some token
    ∧ (svc.saveLineItem scId token item hdrs).headers "sw-context-token" = some token
    ∧ (svc.addPromotionCode scId token code hdrs).headers "sw-context-token" = some token
    ∧ (svc.modifyShippingCosts scId token costs hdrs).headers "sw-context-token" = some token
    ∧ (svc.disableAutomaticPromotions token params hdrs).headers "sw-context-token" = some token
    ∧ (svc.enableAutomaticPromotions token params hdrs).headers "sw-context-token" = some token := by
  refine ⟨rfl, rfl, rfl, ?_, rfl, rfl, rfl, rfl⟩
  unfold CartStoreService.saveLineItem
  cases h : item._isNew <;> simp [h, withContextToken]

/-- C10: a falsy `identifier` (empty string) is treated like an absent one —
it falls through to `item.id` — and when `item.id` is an empty string too the
wire identifier is the freshly generated one. -/
theorem saveLineItem_falsy_id_fallthrough (svc : CartStoreService) (scId token : String)
    (item : LineItem) (hdrs : Headers) :
    (item.identifier = some "" →
      (svc.saveLineItem scId token item hdrs).payloadItemId
        = (svc.saveLineItem scId token { item with identifier := none } hdrs).payloadItemId)
    ∧ (item.identifier = some "" → item.id = some "" →
      (svc.saveLineItem scId token item hdrs).payloadItemId = some svc.createId)
    ∧ (∀ s : String, item.identifier = some "" → item.id = some s → s ≠ "" →
      (svc.saveLineItem scId token item hdrs).payloadItemId = some s) := by
  refine ⟨?_, ?_, ?_⟩
  · intro h1
    rw [(saveLineItem_payload_ids svc scId token item hdrs).1,
        (saveLineItem_payload_ids svc scId token { item with identifier := none } hdrs).1]
    simp [jsOr, h1]
  · intro h1 h2
    rw [(saveLineItem_payload_ids svc scId token item hdrs).1]
    simp [jsOr, h1, h2]
  · intro s h1 h2 hs
    rw [(saveLineItem_payload_ids svc scId token item hdrs).1]
    simp [jsOr, h1, h2, hs]

/-- C10 witness: for a concrete item whose `identifier` and `id` are both
empty strings, the payload identifier is the generated one. -/
theorem saveLineItem_falsy_id_fallthrough_witness :
    allEmptyIdsItem.identifier = some "" ∧ allEmptyIdsItem.id = some ""
    ∧ (testService.saveLineItem "sc-1" "tok" allEmptyIdsItem noHeaders).payloadItemId
        = some "generated-id" :=
  ⟨rfl, rfl,
    (saveLineItem_falsy_id_fallthrough testService "sc-1" "tok" allEmptyIdsItem noHeaders).2.1
      rfl rfl⟩
